import Mathlib

/-!
Shallow embedding of the `dailyco` webhook receiver (src/webhook-server.js)
and the startup checks of the CLI driver (src/daily-test.js).

Conventions of the embedding:
* JavaScript string truthiness (`undefined`, missing, and the empty string
  are falsy) is modelled by `strTruthy` on `Option String`.
* `Buffer.from(str, hex)` is modelled by `hexDecode`: it decodes pairs of
  hex digits and stops at the first character that is not a hex digit,
  dropping a trailing unpaired digit, exactly as Node does.
* `crypto.timingSafeEqual` is modelled by `timingSafeEqual`: it throws a
  `RangeError` (here `Except.error`) when the two byte buffers have
  different lengths, and otherwise reports byte equality.
* External collaborators (the HMAC-SHA256 primitive, `JSON.parse`,
  `Date.toLocaleString`, the floating point duration arithmetic, and the
  two provider REST lookups) are fields of a `JsEnv` record; theorems
  quantify over them, witnesses instantiate them.
-/

/-- JavaScript truthiness of a possibly absent string value: `undefined`
(`none`) and the empty string are falsy, every other string is truthy. -/
def strTruthy : Option String → Bool
  | none => false
  | some s => s != ""

/-- JavaScript `a || d` for a possibly absent string `a` with a string
default `d` (used for `process.env.X || default`). -/
def jsOr (v : Option String) (d : String) : String :=
  match v with
  | none => d
  | some s => if s = "" then d else s

/-- Numeric value of one hex digit, `none` for a non-hex character.
Node accepts both lower and upper case digits. -/
def hexVal (c : Char) : Option Nat :=
  if ('0' ≤ c ∧ c ≤ '9') then some (c.toNat - 48)
  else if ('a' ≤ c ∧ c ≤ 'f') then some (c.toNat - 87)
  else if ('A' ≤ c ∧ c ≤ 'F') then some (c.toNat - 55)
  else none

/-- Whether a character is a hex digit. -/
def isHexDigit (c : Char) : Bool :=
  (hexVal c).isSome

/-- Core of `Buffer.from(string, hex)`: decode hex digit pairs into bytes,
stopping at the first pair containing a non-hex character and dropping a
trailing unpaired digit. -/
def hexDecodeList : List Char → List Nat
  | c1 :: c2 :: rest =>
    match hexVal c1, hexVal c2 with
    | some h, some l => (16 * h + l) :: hexDecodeList rest
    | _, _ => []
  | _ => []

/-- `Buffer.from(s, hex)` as a list of byte values. -/
def hexDecode (s : String) : List Nat :=
  hexDecodeList s.data

/-- `crypto.timingSafeEqual(a, b)`: throws a `RangeError` when the buffers
have different byte lengths, otherwise returns whether they are equal. -/
def timingSafeEqual (a b : List Nat) : Except String Bool :=
  if a.length = b.length then .ok (a == b)
  else .error ("Input buffers must have the same byte length")

/-- A JavaScript value as it can appear after `JSON.parse`, together with
`undefined` (the result of reading an absent property). -/
inductive Js where
  | undefined
  | null
  | bool (b : Bool)
  | num (n : Int)
  | str (s : String)
  | obj (fields : List (String × Js))
  | arr (elems : List Js)

/-- First binding of a key in an object field list. -/
def lookupField : List (String × Js) → String → Option Js
  | [], _ => none
  | (k, v) :: rest, key => if k = key then some v else lookupField rest key

/-- JavaScript property read `v[k]`: throws a `TypeError` on `undefined`
and `null`, looks the key up on objects (absent keys give `undefined`),
and gives `undefined` on the other primitives and on arrays (none of the
keys read by this program exists on them). -/
def Js.get : Js → String → Except String Js
  | .undefined, k => .error ("Cannot read properties of undefined, reading " ++ k)
  | .null, k => .error ("Cannot read properties of null, reading " ++ k)
  | .obj fs, k => .ok ((lookupField fs k).getD .undefined)
  | _, _ => .ok .undefined

/-- Total property read used after a truthiness guard has excluded
`undefined` and `null` (where `Js.get` would throw, `Js.prop` gives
`undefined`; the two agree on every truthy value). -/
def Js.prop (v : Js) (k : String) : Js :=
  match v with
  | .obj fs => (lookupField fs k).getD .undefined
  | _ => .undefined

/-- JavaScript truthiness of a value. -/
def Js.truthy : Js → Bool
  | .undefined => false
  | .null => false
  | .bool b => b
  | .num n => n != 0
  | .str s => s != ""
  | .obj _ => true
  | .arr _ => true

mutual

/-- JavaScript `String(v)` as used by template literal interpolation.
(Array elements that are themselves `null` or `undefined` would render as
empty strings in JavaScript; the receiver never interpolates an array, so
arrays are rendered here as the plain comma join.) -/
def jsToString : Js → String
  | .undefined => "undefined"
  | .null => "null"
  | .bool true => "true"
  | .bool false => "false"
  | .num n => toString n
  | .str s => s
  | .obj _ => "[object Object]"
  | .arr es => jsToStringList es

/-- Comma-joined rendering of array elements. -/
def jsToStringList : List Js → String
  | [] => ""
  | [v] => jsToString v
  | v :: rest => jsToString v ++ "," ++ jsToStringList rest

end

/-- The body value a route handler receives: `POST /webhook` goes through
`express.raw` and sees the raw request bytes (a `Buffer`), while `POST /`
goes through `express.json` and sees an already-parsed value. -/
inductive BodyVal where
  | bytes (raw : String)
  | jsval (v : Js)

/-- External collaborators of the receiver, quantified over in theorems:
the HMAC-SHA256 hex digest primitive, `JSON.parse`, the locale rendering
of `new Date(ts * 1000)`, the floating point duration arithmetic
`Math.round(duration / 60 * 100) / 100` rendered to text, and the two
provider REST lookups (each returns `none` when the HTTP call fails or the
`download_link` field is falsy, mirroring the try/catch that returns
`null`). -/
structure JsEnv where
  hmacHex : String → String → String
  jsonParse : String → Except String Js
  dateLocale : Js → String
  durMinutes : Js → String
  downloadLink : String → Option String
  accessLink : String → Nat → Option String

/-- `crypto.createHmac(sha256, secret).update(payload).digest(hex)`:
defined on strings and Buffers, throws a `TypeError` when handed an
already-parsed object (which is what `POST /` passes it). -/
def hmacUpdateDigestHex (env : JsEnv) (secret : String) : BodyVal → Except String String
  | .bytes s => .ok (env.hmacHex secret s)
  | .jsval _ => .error ("The data argument must be of type string or an instance of Buffer")

/-- JavaScript `s.startsWith(p)` (a code-unit prefix test; all strings the
receiver tests are ASCII). -/
def strStartsWith (s p : String) : Bool :=
  p.data.isPrefixOf s.data

/-- `verifyWebhookSignature(payload, signature, secret)` from
src/webhook-server.js lines 41-60: falsy secret or signature give `false`;
otherwise the expected digest is computed over the payload, a `sha256=`
tag is stripped from the supplied signature, both are hex-decoded and
compared with `crypto.timingSafeEqual` (which throws on a byte-length
mismatch — the `Except.error` cases are exceptions escaping the
function). -/
def verifyWebhookSignature (env : JsEnv) (payload : BodyVal)
    (signature secret : Option String) : Except String Bool :=
  match secret, signature with
  | some sec, some sig =>
    if sec = "" ∨ sig = "" then .ok false
    else
      match hmacUpdateDigestHex env sec payload with
      | .error e => .error e
      | .ok expectedSignature =>
        let actualSignature := if strStartsWith sig ("sha256=") then sig.drop 7 else sig
        timingSafeEqual (hexDecode expectedSignature) (hexDecode actualSignature)
  | _, _ => .ok false

/-- `getRecordingDownloadUrl(recordingId)`: a provider REST lookup wrapped
in try/catch, yielding `download_link` or `null` — never throws. -/
def getRecordingDownloadUrl (env : JsEnv) (recordingId : String) : Option String :=
  env.downloadLink recordingId

/-- `getRecordingAccessLink(recordingId, validForSecs)`: a provider REST
lookup wrapped in try/catch, yielding `download_link` or `null` — never
throws. The JavaScript default for `validForSecs` is 3600 and the one call
site uses the default. -/
def getRecordingAccessLink (env : JsEnv) (recordingId : String) (validForSecs : Nat) : Option String :=
  env.accessLink recordingId validForSecs

/-- One `writeLog` line, identified by its template and the interpolated
dynamic parts (the fixed emoji/text of each template is omitted). -/
inductive LogLine where
  | invalidSignature
  | webhookError (msg : String)
  | unknownEventType (t : String)
  | eventReceived (t : String)
  | invalidEvent (eventName : String)
  | recordingStarted (room recordingId startedBy startTime : String)
  | recordingReady (room recordingId durationMin startTime s3Key downloadUrl streamingUrl : String)
  | recordingError (room recordingId errMsg : String)
  deriving DecidableEq

/-- The JSON body of an HTTP response of the receiver. -/
inductive ResponseBody where
  | statusReceived
  | invalidSignatureMsg
  | internalError
  | middlewareParseError
  deriving DecidableEq

/-- Observable outcome of one request: HTTP status, response body, and the
`writeLog` lines appended while handling it, in order. -/
structure RouteOutcome where
  status : Nat
  respBody : ResponseBody
  logs : List LogLine
  deriving DecidableEq

/-- JavaScript `v || fallback-text` for the nullable strings returned by
the enrichment lookups. -/
def strOrNotAvailable (v : Option String) : String :=
  jsOr v ("Not available")

/-- `handleRecordingStarted(event)` (lines 157-174): guard
`!event || !event.payload` logs an INVALID EVENT line; otherwise the
payload fields are destructured and one RECORDING STARTED line is
appended. Total: after the truthiness guard no property read can throw. -/
def handleRecordingStarted (env : JsEnv) (event : Js) : List LogLine :=
  if event.truthy = false then [.invalidEvent ("recording.started")]
  else if (Js.prop event ("payload")).truthy = false then [.invalidEvent ("recording.started")]
  else
    let payload := Js.prop event ("payload")
    let startedBy := Js.prop payload ("started_by")
    [.recordingStarted (jsToString (Js.prop payload ("room_name")))
      (jsToString (Js.prop payload ("recording_id")))
      (if startedBy.truthy then jsToString startedBy else ("Unknown"))
      (env.dateLocale (Js.prop payload ("start_ts")))]

/-- `handleRecordingReady(event)` (lines 177-208): guard as above; then
both enrichment lookups run (each failure is caught inside the lookup) and
exactly one RECORDING STOPPED and READY line is appended, with the two URL
fields defaulted by `|| Not available`. -/
def handleRecordingReady (env : JsEnv) (event : Js) : List LogLine :=
  if event.truthy = false then [.invalidEvent ("recording.ready-to-download")]
  else if (Js.prop event ("payload")).truthy = false then [.invalidEvent ("recording.ready-to-download")]
  else
    let payload := Js.prop event ("payload")
    let rid := jsToString (Js.prop payload ("recording_id"))
    let s3Key := Js.prop payload ("s3_key")
    let downloadUrl := getRecordingDownloadUrl env rid
    let accessLink := getRecordingAccessLink env rid 3600
    [.recordingReady (jsToString (Js.prop payload ("room_name"))) rid
      (env.durMinutes (Js.prop payload ("duration")))
      (env.dateLocale (Js.prop payload ("start_ts")))
      (if s3Key.truthy then jsToString s3Key else ("Not available"))
      (strOrNotAvailable downloadUrl)
      (strOrNotAvailable accessLink)]

/-- `handleRecordingError(event)` (lines 211-226). -/
def handleRecordingError (_env : JsEnv) (event : Js) : List LogLine :=
  if event.truthy = false then [.invalidEvent ("recording.error")]
  else if (Js.prop event ("payload")).truthy = false then [.invalidEvent ("recording.error")]
  else
    let payload := Js.prop event ("payload")
    let errMsg := Js.prop payload ("error_msg")
    [.recordingError (jsToString (Js.prop payload ("room_name")))
      (jsToString (Js.prop payload ("recording_id")))
      (if errMsg.truthy then jsToString errMsg else ("Unknown error"))]

/-- The `switch (event.type)` dispatch (lines 129-144 and 293-308):
reading `event.type` throws on `null`; a string type selects one of the
three handlers, any other type falls to the default branch which logs the
rendered type. -/
def dispatchEvent (env : JsEnv) (event : Js) : Except String (List LogLine) :=
  match Js.get event ("type") with
  | .error e => .error e
  | .ok (.str s) =>
    if s = ("recording.started") then .ok (handleRecordingStarted env event)
    else if s = ("recording.ready-to-download") then .ok (handleRecordingReady env event)
    else if s = ("recording.error") then .ok (handleRecordingError env event)
    else .ok [.unknownEventType s]
  | .ok t => .ok [.unknownEventType (jsToString t)]

/-- An inbound POST request: the two signature headers the receiver reads
and the raw body bytes as sent on the wire. -/
structure WebhookRequest where
  xDailySignature : Option String
  xSignature : Option String
  rawBody : String

/-- `req.headers[x-daily-signature] || req.headers[x-signature]`. -/
def sigHeader (req : WebhookRequest) : Option String :=
  if strTruthy req.xDailySignature then req.xDailySignature else req.xSignature

/-- The shared tail of both POST routes: `JSON.parse` the payload when it
is a string or Buffer, use it directly when it is already an object. -/
def toEvent (env : JsEnv) : BodyVal → Except String Js
  | .bytes s => env.jsonParse s
  | .jsval v => .ok v

/-- Classify-dispatch-acknowledge tail of `POST /webhook` (lines 116-147):
parse the body, dispatch on `event.type`, respond 200. An `Except.error`
is an exception travelling to the catch block of the route. -/
def processWebhookEvent (env : JsEnv) (body : BodyVal) : Except String RouteOutcome :=
  match toEvent env body with
  | .error e => .error e
  | .ok event =>
    match dispatchEvent env event with
    | .error e => .error e
    | .ok logs => .ok ⟨200, .statusReceived, logs⟩

/-- Body of the `app.post(/webhook)` handler (lines 97-153), up to its
catch block: when a secret is configured AND a signature header is present
the signature is checked (401 on a clean false); otherwise — including
when the header is simply absent — verification is skipped and the event
is processed. -/
def postWebhookE (env : JsEnv) (secret : Option String) (req : WebhookRequest) :
    Except String RouteOutcome :=
  if strTruthy secret && strTruthy (sigHeader req) then
    match verifyWebhookSignature env (.bytes req.rawBody) (sigHeader req) secret with
    | .error e => .error e
    | .ok true => processWebhookEvent env (.bytes req.rawBody)
    | .ok false => .ok ⟨401, .invalidSignatureMsg, [.invalidSignature]⟩
  else processWebhookEvent env (.bytes req.rawBody)

/-- `app.post(/webhook)` with its catch block: an exception anywhere in the
body yields HTTP 500 with one WEBHOOK ERROR log line (no `writeLog` call
precedes any throwing operation in this route). -/
def postWebhook (env : JsEnv) (secret : Option String) (req : WebhookRequest) : RouteOutcome :=
  match postWebhookE env secret req with
  | .ok out => out
  | .error e => ⟨500, .internalError, [.webhookError e]⟩

/-- The `express.json()` middleware as it applies to `POST /`: an empty
body yields an empty object; otherwise the body must parse as JSON and
(strict mode) the top level value must be an object or an array, else the
middleware itself answers 400 and the route handler never runs. -/
def expressJson (env : JsEnv) (raw : String) : Except String Js :=
  if raw = "" then .ok (.obj [])
  else
    match env.jsonParse raw with
    | .error e => .error e
    | .ok (.obj fs) => .ok (.obj fs)
    | .ok (.arr es) => .ok (.arr es)
    | .ok _ => .error ("strict mode rejects a non-object top level value")

/-- Event tail of the POST branch of `app.all(/)` (lines 278-311): the
payload is already an object, an extra WEBHOOK EVENT RECEIVED line (whose
template reads `event.type`) is logged before the same dispatch. -/
def processRootEvent (env : JsEnv) (payload : Js) : Except String RouteOutcome :=
  match toEvent env (.jsval payload) with
  | .error e => .error e
  | .ok event =>
    match Js.get event ("type") with
    | .error e => .error e
    | .ok t =>
      match dispatchEvent env event with
      | .error e => .error e
      | .ok logs => .ok ⟨200, .statusReceived, .eventReceived (jsToString t) :: logs⟩

/-- Body of the POST branch of `app.all(/)` (lines 260-311), up to its
catch block; the signature gate is the same as on `/webhook` but the
payload handed to the verifier is the parsed object. -/
def postRootE (env : JsEnv) (secret : Option String) (sigH : Option String) (payload : Js) :
    Except String RouteOutcome :=
  if strTruthy secret && strTruthy sigH then
    match verifyWebhookSignature env (.jsval payload) sigH secret with
    | .error e => .error e
    | .ok true => processRootEvent env payload
    | .ok false => .ok ⟨401, .invalidSignatureMsg, [.invalidSignature]⟩
  else processRootEvent env payload

/-- `POST /` end to end: `express.json` first (its rejection is a 400 that
never reaches the route), then the route body with its catch block. -/
def postRoot (env : JsEnv) (secret : Option String) (req : WebhookRequest) : RouteOutcome :=
  match expressJson env req.rawBody with
  | .error _ => ⟨400, .middlewareParseError, []⟩
  | .ok payload =>
    match postRootE env secret (sigHeader req) payload with
    | .ok out => out
    | .error e => ⟨500, .internalError, [.webhookError e]⟩

/-- The environment variables the webhook server module reads at startup
(src/webhook-server.js lines 8-14); `dailyApiKey` is listed to record that
the startup sequence never consults it. -/
structure EnvVars where
  dailyApiKey : Option String
  dailyWebhookSecret : Option String
  webhookPort : Option String
  logFile : Option String

/-- The configuration with which the server binds its listener. -/
structure ListenCfg where
  port : String
  logFile : String
  deriving DecidableEq

/-- Result of running a module top level to completion. -/
inductive StartupResult where
  | exitFailure (code : Nat)
  | listening (cfg : ListenCfg)
  deriving DecidableEq

/-- Whether the startup ended in `process.exit` with a failure code. -/
def StartupResult.isExit : StartupResult → Bool
  | .exitFailure _ => true
  | .listening _ => false

/-- Module top level of src/webhook-server.js: reads PORT, LOG_FILE and
the secret, ensures the log directory, registers routes and calls
`app.listen(PORT)` unconditionally — there is no API-key (or any other)
configuration check on this path. -/
def webhookServerStartup (e : EnvVars) : StartupResult :=
  .listening ⟨jsOr e.webhookPort ("3001"), jsOr e.logFile ("./recording_events.log")⟩

/-- The environment the CLI driver src/daily-test.js sees at startup. -/
structure CliEnv where
  envFileExists : Bool
  dailyApiKey : Option String

/-- Result of the CLI driver startup checks. -/
inductive CliStartResult where
  | exitFailure (code : Nat)
  | proceeds
  deriving DecidableEq

/-- Module top level of src/daily-test.js lines 11-31: writes a template
.env and exits 1 when no .env file exists; exits 1 when DAILY_API_KEY is
not set; otherwise proceeds to build the API client. -/
def dailyTestStartup (c : CliEnv) : CliStartResult :=
  if c.envFileExists = false then .exitFailure 1
  else if strTruthy c.dailyApiKey = false then .exitFailure 1
  else .proceeds

/-- The request reaches the classify-dispatch stage of a POST route:
either the signature gate is skipped (no configured secret or no
signature header) or verification returned a clean `true`. -/
def AuthPasses (env : JsEnv) (secret : Option String) (req : WebhookRequest) : Prop :=
  (strTruthy secret && strTruthy (sigHeader req)) = false
  ∨ verifyWebhookSignature env (.bytes req.rawBody) (sigHeader req) secret = .ok true

/-- A 64 character lowercase hex string, standing in for a concrete
HMAC-SHA256 hex digest in concrete evaluations. -/
def hexA64 : String :=
  "aaaaaaaaaaaaaaaaaaaaaaaaaaaaaaaaaaaaaaaaaaaaaaaaaaaaaaaaaaaaaaaa"

/-- Field list of a concrete `recording.started` event body. -/
def evStartedFields : List (String × Js) :=
  [(("type"), .str ("recording.started")),
   (("payload"), .obj [(("room_name"), .str ("demo")),
                       (("recording_id"), .str ("r1")),
                       (("started_by"), .str ("alice")),
                       (("start_ts"), .num 1700000000)])]

/-- A concrete `recording.started` event value. -/
def evStarted : Js := .obj evStartedFields

/-- A concrete `recording.ready-to-download` event value. -/
def evReady : Js :=
  .obj [(("type"), .str ("recording.ready-to-download")),
        (("payload"), .obj [(("room_name"), .str ("demo")),
                            (("recording_id"), .str ("r9")),
                            (("duration"), .num 300),
                            (("start_ts"), .num 1700000000),
                            (("s3_key"), .str ("key1"))])]

/-- A concrete event of an unknown type. -/
def evUnknown : Js := .obj [(("type"), .str ("meeting.ended"))]

/-- A concrete `recording.error` event with no payload field. -/
def evErrNoPayload : Js := .obj [(("type"), .str ("recording.error"))]

/-- A concrete collaborator environment whose parser yields the
`recording.started` event and whose enrichment lookups fail. -/
def sampleEnv : JsEnv :=
  ⟨fun _ _ => hexA64, fun _ => .ok evStarted, fun _ => ("start-time"),
   fun _ => ("5"), fun _ => none, fun _ _ => none⟩

/-- A collaborator environment whose parser yields an empty object. -/
def envEmptyObj : JsEnv :=
  ⟨fun _ _ => hexA64, fun _ => .ok (.obj []), fun _ => ("start-time"),
   fun _ => ("5"), fun _ => none, fun _ _ => none⟩

/-- A collaborator environment whose parser throws. -/
def envParseErr : JsEnv :=
  ⟨fun _ _ => hexA64, fun _ => .error ("Unexpected end of JSON input"),
   fun _ => ("start-time"), fun _ => ("5"), fun _ => none, fun _ _ => none⟩

/-- A collaborator environment whose parser yields the ready event and
whose enrichment lookups fail. -/
def envReady : JsEnv :=
  ⟨fun _ _ => hexA64, fun _ => .ok evReady, fun _ => ("start-time"),
   fun _ => ("5"), fun _ => none, fun _ _ => none⟩

/-- A collaborator environment whose parser yields the unknown event. -/
def envUnknown : JsEnv :=
  ⟨fun _ _ => hexA64, fun _ => .ok evUnknown, fun _ => ("start-time"),
   fun _ => ("5"), fun _ => none, fun _ _ => none⟩

/-- A collaborator environment whose parser yields the payload-free
`recording.error` event. -/
def envErrNoPayload : JsEnv :=
  ⟨fun _ _ => hexA64, fun _ => .ok evErrNoPayload, fun _ => ("start-time"),
   fun _ => ("5"), fun _ => none, fun _ _ => none⟩

/-- A concrete request with no signature headers and a non-empty body. -/
def reqNoSig : WebhookRequest := ⟨none, none, ("raw-started-body")⟩

/-- A concrete request carrying a tagged signature over the sample
digest. -/
def reqTaggedSig : WebhookRequest :=
  ⟨some (("sha256=") ++ hexA64), none, ("raw-started-body")⟩

/-- The environment of a process started with no variables set. -/
def noKeyEnvVars : EnvVars := ⟨none, none, none, none⟩

/-- On an object, the throwing property read agrees with the total one. -/
theorem js_get_obj (fs : List (String × Js)) (k : String) :
    Js.get (.obj fs) k = .ok (Js.prop (.obj fs) k) := rfl

/-- A property read that produced a string forces the receiver of the read
to be an object, hence truthy. -/
theorem truthy_of_get_str (e : Js) (k s : String) (h : Js.get e k = .ok (.str s)) :
    e.truthy = true := by
  cases e <;> simp [Js.get, Js.truthy] at h ⊢

/-- Comparing a buffer with itself never throws and succeeds. -/
theorem timingSafeEqual_self (a : List Nat) : timingSafeEqual a a = .ok true := by
  unfold timingSafeEqual
  rw [if_pos rfl, beq_self_eq_true]

/-- The concatenation of the tag and any string starts with the tag. -/
theorem strStartsWith_tag_append (t : String) :
    strStartsWith (("sha256=") ++ t) ("sha256=") = true := by
  unfold strStartsWith
  rw [String.data_append]
  exact List.isPrefixOf_iff_prefix.mpr (List.prefix_append _ _)

/-- Dropping seven characters removes exactly the `sha256=` tag. -/
theorem drop_tag_append (t : String) : (("sha256=") ++ t).drop 7 = t := by
  apply String.ext
  rw [String.data_drop, String.data_append]
  have h7 : (7 : Nat) = (("sha256=").data).length := rfl
  rw [h7, List.drop_left]

/-- A string of hex digits never starts with the `sha256=` tag. -/
theorem not_strStartsWith_of_hex (h : String)
    (hhex : ∀ c ∈ h.data, isHexDigit c = true) :
    strStartsWith h ("sha256=") = false := by
  unfold strStartsWith
  cases hb : (("sha256=").data).isPrefixOf h.data
  · rfl
  · exfalso
    obtain ⟨rest, hr⟩ := List.isPrefixOf_iff_prefix.mp hb
    have hs : 's' ∈ h.data := by
      rw [← hr]
      exact List.mem_append_left _ (by decide)
    exact absurd (hhex _ hs) (by decide)

/-- Unfolding of the verifier on raw bytes once both inputs are truthy. -/
theorem verify_bytes_eq (env : JsEnv) (P sec sig : String)
    (hsec : sec ≠ "") (hsig : sig ≠ "") :
    verifyWebhookSignature env (.bytes P) (some sig) (some sec) =
      timingSafeEqual (hexDecode (env.hmacHex sec P))
        (hexDecode (if strStartsWith sig ("sha256=") then sig.drop 7 else sig)) := by
  have hstep : verifyWebhookSignature env (.bytes P) (some sig) (some sec) =
      if sec = "" ∨ sig = "" then .ok false
      else timingSafeEqual (hexDecode (env.hmacHex sec P))
        (hexDecode (if strStartsWith sig ("sha256=") then sig.drop 7 else sig)) := rfl
  rw [hstep, if_neg]
  intro hc
  rcases hc with hc | hc
  · exact hsec hc
  · exact hsig hc

/-- Once the signature gate passes, `POST /webhook` is the classify and
dispatch tail wrapped in the catch block. -/
theorem postWebhook_of_auth (env : JsEnv) (secret : Option String) (req : WebhookRequest)
    (h : AuthPasses env secret req) :
    postWebhook env secret req =
      (match processWebhookEvent env (.bytes req.rawBody) with
        | .ok out => out
        | .error e => ⟨500, .internalError, [.webhookError e]⟩) := by
  unfold postWebhook postWebhookE
  rcases h with h | h
  · rw [h]
    simp
  · cases hg : (strTruthy secret && strTruthy (sigHeader req))
    · simp
    · rw [h]
      simp

/-- Evaluation of `POST /webhook` when the gate passes, the body parses
and dispatch produces `logs`. -/
theorem postWebhook_eval (env : JsEnv) (secret : Option String) (req : WebhookRequest)
    (event : Js) (logs : List LogLine)
    (hauth : AuthPasses env secret req)
    (hparse : env.jsonParse req.rawBody = .ok event)
    (hdisp : dispatchEvent env event = .ok logs) :
    postWebhook env secret req = ⟨200, .statusReceived, logs⟩ := by
  rw [postWebhook_of_auth env secret req hauth]
  simp only [processWebhookEvent, toEvent, hparse, hdisp]

/-- Evaluation of `POST /webhook` when the gate passes and `JSON.parse`
throws: the catch block answers 500 with one error line. -/
theorem postWebhook_parse_error (env : JsEnv) (secret : Option String) (req : WebhookRequest)
    (e : String)
    (hauth : AuthPasses env secret req)
    (hparse : env.jsonParse req.rawBody = .error e) :
    postWebhook env secret req = ⟨500, .internalError, [.webhookError e]⟩ := by
  rw [postWebhook_of_auth env secret req hauth]
  simp only [processWebhookEvent, toEvent, hparse]

/-- Dispatch of a string event type that matches none of the three known
kinds falls to the default branch and logs the type. -/
theorem dispatchEvent_unknown (env : JsEnv) (event : Js) (t : String)
    (ht : Js.get event ("type") = .ok (.str t))
    (h1 : t ≠ ("recording.started")) (h2 : t ≠ ("recording.ready-to-download"))
    (h3 : t ≠ ("recording.error")) :
    dispatchEvent env event = .ok [.unknownEventType t] := by
  unfold dispatchEvent
  rw [ht]
  simp [h1, h2, h3]

/-- Dispatch of an object event never throws. -/
theorem dispatchEvent_obj_ok (env : JsEnv) (fs : List (String × Js)) :
    ∃ logs, dispatchEvent env (.obj fs) = .ok logs := by
  unfold dispatchEvent
  rw [js_get_obj]
  cases hv : Js.prop (.obj fs) ("type")
  case str s =>
    by_cases h1 : s = ("recording.started")
    · exact ⟨handleRecordingStarted env (.obj fs), by simp [h1]⟩
    · by_cases h2 : s = ("recording.ready-to-download")
      · exact ⟨handleRecordingReady env (.obj fs), by simp [h1, h2]⟩
      · by_cases h3 : s = ("recording.error")
        · exact ⟨handleRecordingError env (.obj fs), by simp [h1, h2, h3]⟩
        · exact ⟨[.unknownEventType s], by simp [h1, h2, h3]⟩
  all_goals exact ⟨_, rfl⟩

/-- C1: the claim says `verifyWebhookSignature` returns `false` and never
throws on any malformed input. The code agrees for a missing header or a
missing secret, but a signature whose truncating hex decoding is not
exactly 32 bytes long — every wrong-length signature and almost every
non-hex signature — reaches `crypto.timingSafeEqual`, which throws a
`RangeError` instead of returning `false`. The four conjuncts evaluate the
verifier on: a wrong-length hex signature (throws), a non-hex signature
(throws), a missing header (false), a missing secret (false). -/
theorem c1_verifier_throws_on_malformed :
    verifyWebhookSignature sampleEnv (.bytes ("x")) (some ("00")) (some ("k"))
        = .error ("Input buffers must have the same byte length")
    ∧ verifyWebhookSignature sampleEnv (.bytes ("x")) (some ("zz")) (some ("k"))
        = .error ("Input buffers must have the same byte length")
    ∧ verifyWebhookSignature sampleEnv (.bytes ("x")) none (some ("k")) = .ok false
    ∧ verifyWebhookSignature sampleEnv (.bytes ("x")) (some ("00")) none = .ok false :=
  ⟨rfl, rfl, rfl, rfl⟩

/-- C2: the claim says that with a secret configured, a missing signature
header yields 401 with only an authentication-failure log line and no
further processing. In the code the gate is `WEBHOOK_SECRET && signature`,
so a request with NO signature header skips verification entirely: the
event is parsed, dispatched to its handler, logged, and acknowledged with
200. -/
theorem c2_missing_header_bypasses_auth :
    postWebhook sampleEnv (some ("topsecret")) reqNoSig
      = ⟨200, .statusReceived,
          [.recordingStarted ("demo") ("r1") ("alice") ("start-time")]⟩ := rfl

/-- C4 counterexample: the claim says the webhook receiver exits with a
non-zero status when the API key variable is unset. Starting the module
with every environment variable unset binds the listener on the default
port — the startup sequence of src/webhook-server.js contains no API key
check at all. -/
theorem c4_counterexample_starts_without_key :
    webhookServerStartup noKeyEnvVars
        = .listening ⟨("3001"), ("./recording_events.log")⟩
    ∧ (webhookServerStartup noKeyEnvVars).isExit = false :=
  ⟨rfl, rfl⟩

/-- C4 amended: the missing-API-key startup exit lives in the CLI driver
(src/daily-test.js), not in the webhook receiver: the receiver binds its
listener whatever the environment holds, while the CLI driver exits with
status 1 when the .env file exists but DAILY_API_KEY is unset or empty. -/
theorem c4_amended_api_key_check_location :
    (∀ e : EnvVars, webhookServerStartup e
        = .listening ⟨jsOr e.webhookPort ("3001"), jsOr e.logFile ("./recording_events.log")⟩)
    ∧ (∀ c : CliEnv, c.envFileExists = true → strTruthy c.dailyApiKey = false →
        dailyTestStartup c = .exitFailure 1) := by
  constructor
  · intro e
    rfl
  · intro c h1 h2
    unfold dailyTestStartup
    rw [h1, h2]
    simp

/-- C4 amended, witnessed at concrete inputs: the receiver with nothing
set listens; the CLI with an .env file and no key exits 1. -/
theorem c4_amended_witness :
    webhookServerStartup noKeyEnvVars
        = .listening ⟨("3001"), ("./recording_events.log")⟩
    ∧ dailyTestStartup ⟨true, none⟩ = .exitFailure 1 :=
  ⟨c4_amended_api_key_check_location.1 noKeyEnvVars,
   c4_amended_api_key_check_location.2 ⟨true, none⟩ rfl rfl⟩

/-- C6: for every payload and every truthy secret, presenting the correct
HMAC hex digest with the `sha256=` tag and presenting it as bare hex
verify identically — the tag is stripped before comparison and has no
other effect — and both verifications succeed. The two facts assumed of
the external digest primitive are the shape guarantees of
`digest(hex)`: 64 characters, all hex digits. -/
theorem c6_sha256_tag_insensitive (env : JsEnv) (P sec : String) (hsec : sec ≠ "")
    (hlen : (env.hmacHex sec P).length = 64)
    (hhex : ∀ c ∈ (env.hmacHex sec P).data, isHexDigit c = true) :
    verifyWebhookSignature env (.bytes P)
        (some (("sha256=") ++ env.hmacHex sec P)) (some sec)
      = verifyWebhookSignature env (.bytes P) (some (env.hmacHex sec P)) (some sec)
    ∧ verifyWebhookSignature env (.bytes P) (some (env.hmacHex sec P)) (some sec)
      = .ok true := by
  have hne : env.hmacHex sec P ≠ "" := by
    intro he
    rw [he] at hlen
    exact absurd hlen (by decide)
  have hne2 : ("sha256=") ++ env.hmacHex sec P ≠ "" := by
    intro he
    have h1 := congrArg String.length he
    rw [String.length_append, hlen] at h1
    exact absurd h1 (by decide)
  have hbare : verifyWebhookSignature env (.bytes P) (some (env.hmacHex sec P)) (some sec)
      = .ok true := by
    rw [verify_bytes_eq env P sec _ hsec hne,
        not_strStartsWith_of_hex (env.hmacHex sec P) hhex]
    simp [timingSafeEqual_self]
  refine ⟨?_, hbare⟩
  rw [verify_bytes_eq env P sec _ hsec hne2, strStartsWith_tag_append, hbare]
  simp [drop_tag_append, timingSafeEqual_self]

/-- C6 witness: the tag-insensitivity theorem applied at a concrete
payload, secret, and digest primitive. -/
theorem c6_sha256_tag_insensitive_witness :
    verifyWebhookSignature sampleEnv (.bytes ("x"))
        (some (("sha256=") ++ sampleEnv.hmacHex ("k") ("x"))) (some ("k"))
      = verifyWebhookSignature sampleEnv (.bytes ("x"))
        (some (sampleEnv.hmacHex ("k") ("x"))) (some ("k"))
    ∧ verifyWebhookSignature sampleEnv (.bytes ("x"))
        (some (sampleEnv.hmacHex ("k") ("x"))) (some ("k")) = .ok true :=
  c6_sha256_tag_insensitive sampleEnv ("x") ("k") (by decide) (by decide) (by decide)

/-- C5 counterexample: the claim says a decoded body lacking a `type`
field fails classification and yields HTTP 500 with an error log. A POST
whose body decodes to the empty object is instead routed to the default
switch branch, logged as event type `undefined`, and acknowledged with
200. -/
theorem c5_counterexample_missing_type_is_200 :
    postWebhook envEmptyObj none reqNoSig
        = ⟨200, .statusReceived, [.unknownEventType ("undefined")]⟩
    ∧ (postWebhook envEmptyObj none reqNoSig).status ≠ 500 :=
  ⟨rfl, by decide⟩

/-- C5 amended: once the signature gate passes, a body on which
`JSON.parse` throws yields HTTP 500 with exactly one error log line and no
handler runs; a body that decodes to an object with no `type` field is
dispatched to the default branch, logged as event type `undefined`, and
acknowledged with 200. -/
theorem c5_amended_parse_error_500 (env : JsEnv) (secret : Option String)
    (req : WebhookRequest) (hauth : AuthPasses env secret req) :
    (∀ e : String, env.jsonParse req.rawBody = .error e →
        postWebhook env secret req = ⟨500, .internalError, [.webhookError e]⟩)
    ∧ (∀ fs : List (String × Js), env.jsonParse req.rawBody = .ok (.obj fs) →
        lookupField fs ("type") = none →
        postWebhook env secret req
          = ⟨200, .statusReceived, [.unknownEventType ("undefined")]⟩) := by
  constructor
  · intro e hparse
    exact postWebhook_parse_error env secret req e hauth hparse
  · intro fs hparse hty
    apply postWebhook_eval env secret req (.obj fs) _ hauth hparse
    simp only [dispatchEvent, js_get_obj, Js.prop, hty, Option.getD]
    rfl

/-- C5 amended witness: the amended theorem applied at two concrete
collaborator environments, one whose parser throws and one whose parser
yields the empty object. -/
theorem c5_amended_parse_error_500_witness :
    postWebhook envParseErr none reqNoSig
        = ⟨500, .internalError, [.webhookError ("Unexpected end of JSON input")]⟩
    ∧ postWebhook envEmptyObj none reqNoSig
        = ⟨200, .statusReceived, [.unknownEventType ("undefined")]⟩ :=
  ⟨(c5_amended_parse_error_500 envParseErr none reqNoSig (Or.inl rfl)).1
      ("Unexpected end of JSON input") rfl,
   (c5_amended_parse_error_500 envEmptyObj none reqNoSig (Or.inl rfl)).2 [] rfl rfl⟩

/-- C7: a webhook event whose `type` is a string different from the three
known recording kinds is accepted: the unknown type is logged and the
response is HTTP 200, never a rejection status. -/
theorem c7_unknown_event_type_accepted (env : JsEnv) (secret : Option String)
    (req : WebhookRequest) (event : Js) (t : String)
    (hauth : AuthPasses env secret req)
    (hparse : env.jsonParse req.rawBody = .ok event)
    (htype : Js.get event ("type") = .ok (.str t))
    (h1 : t ≠ ("recording.started")) (h2 : t ≠ ("recording.ready-to-download"))
    (h3 : t ≠ ("recording.error")) :
    postWebhook env secret req = ⟨200, .statusReceived, [.unknownEventType t]⟩ :=
  postWebhook_eval env secret req event _ hauth hparse
    (dispatchEvent_unknown env event t htype h1 h2 h3)

/-- C7 witness: the unknown-type theorem applied to a concrete
`meeting.ended` event. -/
theorem c7_unknown_event_type_accepted_witness :
    postWebhook envUnknown none reqNoSig
      = ⟨200, .statusReceived, [.unknownEventType ("meeting.ended")]⟩ :=
  c7_unknown_event_type_accepted envUnknown none reqNoSig evUnknown ("meeting.ended")
    (Or.inl rfl) rfl rfl (by decide) (by decide) (by decide)

/-- Reduction of dispatch once the event type is known to be a string. -/
theorem dispatchEvent_str (env : JsEnv) (event : Js) (s : String)
    (ht : Js.get event ("type") = .ok (.str s)) :
    dispatchEvent env event =
      (if s = ("recording.started") then .ok (handleRecordingStarted env event)
       else if s = ("recording.ready-to-download") then .ok (handleRecordingReady env event)
       else if s = ("recording.error") then .ok (handleRecordingError env event)
       else .ok [.unknownEventType s]) := by
  unfold dispatchEvent
  rw [ht]

/-- C8: a `recording.ready-to-download` event with a truthy payload whose
two enrichment lookups both fail still appends exactly one event log line,
with both the download URL field and the streaming URL field rendered as
Not available, and the response is HTTP 200. -/
theorem c8_ready_event_both_lookups_fail (env : JsEnv) (secret : Option String)
    (req : WebhookRequest) (event : Js)
    (hauth : AuthPasses env secret req)
    (hparse : env.jsonParse req.rawBody = .ok event)
    (htype : Js.get event ("type") = .ok (.str ("recording.ready-to-download")))
    (hpay : (Js.prop event ("payload")).truthy = true)
    (hdl : env.downloadLink
        (jsToString (Js.prop (Js.prop event ("payload")) ("recording_id"))) = none)
    (hal : env.accessLink
        (jsToString (Js.prop (Js.prop event ("payload")) ("recording_id"))) 3600 = none) :
    postWebhook env secret req = ⟨200, .statusReceived,
      [.recordingReady
        (jsToString (Js.prop (Js.prop event ("payload")) ("room_name")))
        (jsToString (Js.prop (Js.prop event ("payload")) ("recording_id")))
        (env.durMinutes (Js.prop (Js.prop event ("payload")) ("duration")))
        (env.dateLocale (Js.prop (Js.prop event ("payload")) ("start_ts")))
        (if (Js.prop (Js.prop event ("payload")) ("s3_key")).truthy
          then jsToString (Js.prop (Js.prop event ("payload")) ("s3_key"))
          else ("Not available"))
        ("Not available") ("Not available")]⟩ := by
  have hev : event.truthy = true := truthy_of_get_str event ("type") _ htype
  apply postWebhook_eval env secret req event _ hauth hparse
  rw [dispatchEvent_str env event _ htype]
  rw [if_neg (by decide), if_pos rfl]
  simp only [handleRecordingReady, hev, hpay, getRecordingDownloadUrl,
    getRecordingAccessLink, hdl, hal, strOrNotAvailable, jsOr]
  simp

/-- C8 witness: the theorem applied to a concrete ready event under an
environment whose two lookups fail. -/
theorem c8_ready_event_both_lookups_fail_witness :
    postWebhook envReady none reqNoSig = ⟨200, .statusReceived,
      [.recordingReady ("demo") ("r9") ("5") ("start-time") ("key1")
        ("Not available") ("Not available")]⟩ :=
  c8_ready_event_both_lookups_fail envReady none reqNoSig evReady
    (Or.inl rfl) rfl rfl rfl rfl rfl

/-- C10: an event whose `type` is one of the three known recording kinds
but whose `payload` field is absent is handled by the guard of the
matching handler: one INVALID EVENT log line is appended, nothing throws,
and the response is HTTP 200. -/
theorem c10_known_type_missing_payload (env : JsEnv) (secret : Option String)
    (req : WebhookRequest) (event : Js) (t : String)
    (hauth : AuthPasses env secret req)
    (hparse : env.jsonParse req.rawBody = .ok event)
    (htype : Js.get event ("type") = .ok (.str t))
    (ht3 : t = ("recording.started") ∨ t = ("recording.ready-to-download")
        ∨ t = ("recording.error"))
    (hpay : Js.prop event ("payload") = .undefined) :
    postWebhook env secret req = ⟨200, .statusReceived, [.invalidEvent t]⟩ := by
  have hev : event.truthy = true := truthy_of_get_str event ("type") _ htype
  apply postWebhook_eval env secret req event _ hauth hparse
  rw [dispatchEvent_str env event _ htype]
  rcases ht3 with h | h | h <;> subst h
  · rw [if_pos rfl]
    simp only [handleRecordingStarted, hev, hpay, Js.truthy]
    simp
  · rw [if_neg (by decide), if_pos rfl]
    simp only [handleRecordingReady, hev, hpay, Js.truthy]
    simp
  · rw [if_neg (by decide), if_neg (by decide), if_pos rfl]
    simp only [handleRecordingError, hev, hpay, Js.truthy]
    simp

/-- C10 witness: the theorem applied to a concrete `recording.error`
event with no payload field. -/
theorem c10_known_type_missing_payload_witness :
    postWebhook envErrNoPayload none reqNoSig
      = ⟨200, .statusReceived, [.invalidEvent ("recording.error")]⟩ :=
  c10_known_type_missing_payload envErrNoPayload none reqNoSig evErrNoPayload
    ("recording.error") (Or.inl rfl) rfl rfl (Or.inr (Or.inr rfl)) rfl

/-- C3 counterexample: the claim says `POST /` and `POST /webhook` behave
identically on the same request. With a secret configured and a correctly
tagged signature over the raw bytes, `/webhook` verifies over the raw body
and answers 200, while `/` hands the `express.json`-parsed object to
`hmac.update`, which throws, so the catch block answers 500 — the two
paths differ in status, body, and logs on the very same request. -/
theorem c3_counterexample_paths_differ :
    postWebhook sampleEnv (some ("k")) reqTaggedSig
      = ⟨200, .statusReceived,
          [.recordingStarted ("demo") ("r1") ("alice") ("start-time")]⟩
    ∧ postRoot sampleEnv (some ("k")) reqTaggedSig
      = ⟨500, .internalError,
          [.webhookError ("The data argument must be of type string or an instance of Buffer")]⟩
    ∧ (postWebhook sampleEnv (some ("k")) reqTaggedSig).status
        ≠ (postRoot sampleEnv (some ("k")) reqTaggedSig).status :=
  ⟨rfl, rfl, by decide⟩

/-- C3 amended: when no signing secret is configured (or it is empty), a
POST with the same non-empty raw body decoding to a JSON object produces
on `/` and on `/webhook` the same HTTP status and the same response body,
and runs the same dispatch — the only difference is one extra WEBHOOK
EVENT RECEIVED log line that the root path prepends. When a secret is
configured and a signature header is present the paths genuinely diverge
(see the counterexample): `/webhook` computes the HMAC over the exact raw
bytes, while `/` passes the re-parsed object to the verifier, which
throws and turns the request into a 500. -/
theorem c3_amended_no_secret_equiv (env : JsEnv) (secret : Option String)
    (req : WebhookRequest) (fs : List (String × Js))
    (hsec : strTruthy secret = false)
    (hraw : req.rawBody ≠ "")
    (hparse : env.jsonParse req.rawBody = .ok (.obj fs)) :
    (postRoot env secret req).status = (postWebhook env secret req).status
    ∧ (postRoot env secret req).respBody = (postWebhook env secret req).respBody
    ∧ (postRoot env secret req).logs
        = .eventReceived (jsToString (Js.prop (.obj fs) ("type")))
            :: (postWebhook env secret req).logs := by
  obtain ⟨logs, hdisp⟩ := dispatchEvent_obj_ok env fs
  have hw : postWebhook env secret req = ⟨200, .statusReceived, logs⟩ :=
    postWebhook_eval env secret req (.obj fs) logs
      (Or.inl (by simp [hsec])) hparse hdisp
  have hr : postRoot env secret req
      = ⟨200, .statusReceived,
          .eventReceived (jsToString (Js.prop (.obj fs) ("type"))) :: logs⟩ := by
    unfold postRoot expressJson
    rw [if_neg hraw]
    simp only [hparse]
    unfold postRootE
    simp only [hsec, Bool.false_and]
    unfold processRootEvent toEvent
    simp only [js_get_obj, hdisp]
    simp
  rw [hw, hr]
  exact ⟨rfl, rfl, rfl⟩

/-- C3 amended witness: the equivalence applied to the concrete
`recording.started` request with no secret configured. -/
theorem c3_amended_no_secret_equiv_witness :
    (postRoot sampleEnv none reqNoSig).status = (postWebhook sampleEnv none reqNoSig).status
    ∧ (postRoot sampleEnv none reqNoSig).respBody
        = (postWebhook sampleEnv none reqNoSig).respBody
    ∧ (postRoot sampleEnv none reqNoSig).logs
        = .eventReceived ("recording.started") :: (postWebhook sampleEnv none reqNoSig).logs :=
  c3_amended_no_secret_equiv sampleEnv none reqNoSig evStartedFields rfl (by decide) rfl
